import Mathlib

/-!
Verification of the report-generation core shared by the three variants in
this repository (Endpoint-health-checker, backup-verifier, log-parser).

The Python sources are shallowly embedded: numeric values (Python floats
read from JSON/CSV) are modelled as rationals, `datetime` values as rational
timestamps (seconds), dictionaries with optional keys as structures of
`Option` fields, and operations that can raise (`KeyError`, `ValueError`)
return `Option`/`Except`.  Status values are kept as the literal strings
"OK" / "WARN" / "ALERT" produced by the code.
-/

/- ## Python string and number primitives -/

/-- The ASCII whitespace characters removed by Python `str.strip()`. -/
def isPyWs (c : Char) : Bool :=
  c = ' ' || c = '\t' || c = '\n' || c = '\r' || c = '\x0b' || c = '\x0c'

/-- Python `str.strip()`: drop whitespace from both ends. -/
def pyStrip (s : String) : String :=
  ⟨((s.data.dropWhile isPyWs).reverse.dropWhile isPyWs).reverse⟩

/-- Python `str.lower()`, modelled per character (ASCII case folding). -/
def pyLower (s : String) : String :=
  ⟨s.data.map Char.toLower⟩

/-- Digit run to a natural number value. -/
def natVal (l : List Char) : ℕ :=
  l.foldl (fun v c => v * 10 + (c.toNat - 48)) 0

/- The arithmetic on ℚ used inside the embedded definitions is expressed
through the following `mkRat`-based operations, which the kernel can
evaluate on concrete inputs (the library's `Rat.add` and friends are
irreducible).  Each is proved equal to the corresponding field operation
just below, so the embedding computes the true rational values. -/

/-- A natural number as a rational. -/
def qnat (n : ℕ) : ℚ := mkRat n 1

/-- An integer as a rational. -/
def qint (z : ℤ) : ℚ := mkRat z 1

/-- Computable rational addition. -/
def qadd (a b : ℚ) : ℚ := mkRat (a.num * b.den + b.num * a.den) (a.den * b.den)

/-- Computable rational subtraction. -/
def qsub (a b : ℚ) : ℚ := mkRat (a.num * b.den - b.num * a.den) (a.den * b.den)

/-- Computable rational multiplication. -/
def qmul (a b : ℚ) : ℚ := mkRat (a.num * b.num) (a.den * b.den)

/-- Computable rational negation. -/
def qneg (a : ℚ) : ℚ := mkRat (-a.num) a.den

/-- Computable division of a rational by a natural number. -/
def qdivn (a : ℚ) (n : ℕ) : ℚ := mkRat a.num (a.den * n)

/-- Computable floor of a rational. -/
def qfloor (q : ℚ) : ℤ := q.num / q.den

/-- Models Python `float(...)` on plain decimal literals (optional sign,
integer digits, optional fractional part, surrounding whitespace).  Returns
`none` where `float` would raise `ValueError`.  Exponent notation and the
special forms are not exercised by any record considered here. -/
def parseDecimal (s : String) : Option ℚ :=
  let l := (pyStrip s).data
  let negAndBody : Bool × List Char :=
    match l with
    | '-' :: rest => (true, rest)
    | '+' :: rest => (false, rest)
    | _ => (false, l)
  let body := negAndBody.2
  let ip := body.takeWhile Char.isDigit
  let mag : Option ℚ :=
    match body.dropWhile Char.isDigit with
    | [] => if ip = [] then none else some (qnat (natVal ip))
    | '.' :: fp =>
      if fp.all Char.isDigit && !(ip = [] && fp = []) then
        some (qadd (qnat (natVal ip)) (mkRat (natVal fp) (10 ^ fp.length)))
      else none
    | _ => none
  mag.map fun q => if negAndBody.1 then qneg q else q

/-- Round to the nearest integer with ties to even, the rounding Python
uses for fixed-point formatting. -/
def roundHalfEven (q : ℚ) : ℤ :=
  let f : ℤ := qfloor q
  let r : ℚ := qsub q (qint f)
  if r < mkRat 1 2 then f
  else if mkRat 1 2 < r then f + 1
  else if f % 2 = 0 then f else f + 1

/-- Left-pad with zeros to width `w`. -/
def padZeros (w : ℕ) (s : String) : String :=
  ⟨List.replicate (w - s.length) '0'⟩ ++ s

/-- Python fixed-point formatting `f"{x:.Nf}"`, modelled on exact
rationals. -/
def fmtFixed (prec : ℕ) (q : ℚ) : String :=
  let n := roundHalfEven (qmul q (qnat (10 ^ prec)))
  let sign := if n < 0 then "-" else ""
  let m := n.natAbs
  if prec = 0 then sign ++ toString m
  else sign ++ toString (m / 10 ^ prec) ++ "." ++ padZeros prec (toString (m % 10 ^ prec))

/-- Python `int(...)` truncation toward zero on a numeric value. -/
def ratTrunc (q : ℚ) : ℤ :=
  if q < 0 then -(qfloor (qneg q)) else qfloor q

/-- Python `str(...)` of a JSON-loaded number: integers print without a
decimal point, other values in fixed-point with the least sufficient
precision (exact decimals only arise here). -/
def qStr (q : ℚ) : String :=
  if q.den = 1 then toString q.num
  else
    let k := ((List.range 18).find? fun k => (qmul q (qnat (10 ^ k))).den = 1).getD 17
    fmtFixed k q

/-- `html.escape` (quote=True) on one character: the five markup
metacharacters are replaced by entities. -/
def escChar (c : Char) : List Char :=
  if c = '&' then "&amp;".data
  else if c = '<' then "&lt;".data
  else if c = '>' then "&gt;".data
  else if c.toNat = 34 then "&quot;".data
  else if c.toNat = 39 then "&#x27;".data
  else [c]

/-- `esc(x)` as defined identically in all three variants:
`html.escape(str(x))` (the `None` case is not needed since the model passes
strings). -/
def esc (s : String) : String :=
  ⟨(s.data.map escChar).flatten⟩

/-- Substring occurrence, to state what a reason string mentions. -/
def strMentions (needle hay : String) : Prop :=
  needle.data <:+: hay.data

instance (needle hay : String) : Decidable (strMentions needle hay) := by
  unfold strMentions; infer_instance

/-- Urgency order on the status strings (spec: ALERT > WARN > OK). -/
def sevUrgency (s : String) : ℕ :=
  if s = "ALERT" then 2 else if s = "WARN" then 1 else 0

/-- The more severe of two statuses (first argument wins ties). -/
def maxSev (a b : String) : String :=
  if sevUrgency a < sevUrgency b then b else a

/- ## log-parser/src/report.py -/

/-- Match of the anchored regex `\\\\[^\\]+\\(.*)$` used by
`normalize_counter_path`, returning the capture group.  `.` does not match
a newline, and `$` also matches just before a newline that ends the
string (in which case the capture stops before it). -/
def hostPrefixMatch (l : List Char) : Option (List Char) :=
  match l with
  | '\\' :: '\\' :: rest =>
    let pre := rest.takeWhile (fun c => c ≠ '\\')
    match rest.dropWhile (fun c => c ≠ '\\') with
    | '\\' :: tail =>
      if pre = [] then none
      else if tail.contains '\n' then
        if tail.getLast? == some '\n' && !(tail.dropLast.contains '\n') then
          some tail.dropLast
        else none
      else some tail
    | _ => none
  | _ => none

/-- `normalize_counter_path`: strip, drop a leading `\\host` segment when
the regex matches, and lowercase. -/
def normalize_counter_path (raw : String) : String :=
  let s := pyStrip raw
  let s' : List Char :=
    match hostPrefixMatch s.data with
    | some g => '\\' :: g
    | none => s.data
  ⟨s'.map Char.toLower⟩

/-- `friendly_counter_name`: static display-name table with verbatim
fallback. -/
def friendly_counter_name (norm : String) : String :=
  if norm = "\\processor(_total)\\% processor time" then "CPU % Processor Time (Total)"
  else if norm = "\\memory\\% committed bytes in use" then "Memory % Committed Bytes In Use"
  else if norm = "\\memory\\available mbytes" then "Memory Available MB"
  else if norm = "\\physicaldisk(_total)\\avg. disk queue length" then "Disk Avg. Disk Queue Length (Total)"
  else norm

/-- A perf-counter threshold entry: either a warn/alert pair (high is bad)
or a warn_low/alert_low pair (low is bad), mirroring the two dictionary
shapes in `classify_perf`. -/
inductive PerfBounds where
  | highBad (warn alert : ℚ)
  | lowBad (warnLow alertLow : ℚ)
deriving DecidableEq

/-- The hard-coded `thresholds` table inside `classify_perf`. -/
def perfThresholds (norm : String) : Option PerfBounds :=
  if norm = "\\processor(_total)\\% processor time" then some (PerfBounds.highBad 70 85)
  else if norm = "\\memory\\% committed bytes in use" then some (PerfBounds.highBad 75 85)
  else if norm = "\\physicaldisk(_total)\\avg. disk queue length" then some (PerfBounds.highBad 2 4)
  else if norm = "\\memory\\available mbytes" then some (PerfBounds.lowBad 1024 512)
  else none

/-- `classify_perf(norm, avg, maxv)`: no threshold entry is OK; a
`warn_low` entry is the low-is-bad branch; otherwise high-is-bad.  Either
of avg and max crossing a boundary triggers that severity. -/
def classify_perf (norm : String) (avg maxv : ℚ) : String × String :=
  match perfThresholds norm with
  | none => ("OK", "No threshold set")
  | some (PerfBounds.lowBad warnLow alertLow) =>
    if maxv ≤ alertLow ∨ avg ≤ alertLow then
      ("ALERT", "Low available memory (avg=" ++ fmtFixed 1 avg ++ " MB, max=" ++ fmtFixed 1 maxv ++ " MB)")
    else if maxv ≤ warnLow ∨ avg ≤ warnLow then
      ("WARN", "Low available memory (avg=" ++ fmtFixed 1 avg ++ " MB, max=" ++ fmtFixed 1 maxv ++ " MB)")
    else ("OK", "Within normal range")
  | some (PerfBounds.highBad warn alert) =>
    if maxv ≥ alert ∨ avg ≥ alert then
      ("ALERT", "High usage (avg=" ++ fmtFixed 1 avg ++ ", max=" ++ fmtFixed 1 maxv ++ ")")
    else if maxv ≥ warn ∨ avg ≥ warn then
      ("WARN", "Elevated usage (avg=" ++ fmtFixed 1 avg ++ ", max=" ++ fmtFixed 1 maxv ++ ")")
    else ("OK", "Within normal range")

/-- One raw CSV row of perf_summary.csv as `csv.DictReader` yields it: a
field is `none` when its column is missing from the file. -/
structure PerfCsvRow where
  Counter : Option String
  Avg : Option String
  Max : Option String
  Samples : Option String

/-- One entry of the list built by `read_perf_summary`. -/
structure PerfEntry where
  counter_raw : String
  counter_norm : String
  counter_name : String
  avg : ℚ
  max : ℚ
  samples : ℤ
  status : String
  reason : String
deriving DecidableEq

/-- Models `float(r.get(k, "0") or 0)`: a missing key reads as "0", an
empty string is falsy and reads as the integer 0, any other string is
parsed (raising, i.e. `none`, on junk). -/
def csvNumField (f : Option String) : Option ℚ :=
  match f with
  | none => parseDecimal "0"
  | some v => if v = "" then some 0 else parseDecimal v

/-- The per-row body of `read_perf_summary`: extract raw counter and
numbers, normalize, classify, and build the row dictionary.  `none` models
a `ValueError` aborting the read. -/
def read_perf_row (r : PerfCsvRow) : Option PerfEntry := do
  let raw := r.Counter.getD ""
  let avg ← csvNumField r.Avg
  let maxv ← csvNumField r.Max
  let samples ← csvNumField r.Samples
  let norm := normalize_counter_path raw
  let sr := classify_perf norm avg maxv
  some { counter_raw := raw, counter_norm := norm,
         counter_name := friendly_counter_name norm,
         avg := avg, max := maxv, samples := ratTrunc samples,
         status := sr.1, reason := sr.2 }

/- ## Endpoint-health-checker/src/report.py -/

instance {e a : Type} [DecidableEq e] [DecidableEq a] : DecidableEq (Except e a) := fun x y =>
  match x, y with
  | Except.ok u, Except.ok v =>
    if h : u = v then Decidable.isTrue (by rw [h]) else Decidable.isFalse (by simp [h])
  | Except.error u, Except.error v =>
    if h : u = v then Decidable.isTrue (by rw [h]) else Decidable.isFalse (by simp [h])
  | Except.ok _, Except.error _ => Decidable.isFalse (by simp)
  | Except.error _, Except.ok _ => Decidable.isFalse (by simp)

/-- `"".join(parts)`. -/
def strJoin (l : List String) : String :=
  l.foldl (fun a b => a ++ b) ""

/-- `badge(status)` (named `status_badge` in the log parser, same body):
css class from the status with fallback "ok". -/
def badge (status : String) : String :=
  let cls :=
    if status = "OK" then "ok" else if status = "WARN" then "warn"
    else if status = "ALERT" then "bad" else "ok"
  "<span class=\x27badge " ++ cls ++ "\x27>" ++ esc status ++ "</span>"

/-- `make_table(headers, rows)`, identical in the variants: header cells,
then either a "No data" placeholder row or one `<tr>` per row, every cell
escaped. -/
def make_table (headers : List String) (rows : List (List String)) : String :=
  let th := strJoin (headers.map fun h => "<th>" ++ esc h ++ "</th>")
  let body :=
    if rows = [] then
      "<tr><td colspan=\x27" ++ toString headers.length ++ "\x27><i>No data</i></td></tr>"
    else
      strJoin (rows.map fun r =>
        "<tr>" ++ strJoin (r.map fun c => "<td>" ++ esc c ++ "</td>") ++ "</tr>")
  "<table><thead><tr>" ++ th ++ "</tr></thead><tbody>" ++ body ++ "</tbody></table>"

/-- The thresholds dictionary of the endpoint checker; a field is `none`
when its key is missing from thresholds.json. -/
structure EThresholds where
  disk_free_warn_pct : Option ℚ
  disk_free_alert_pct : Option ℚ
  cpu_warn_pct : Option ℚ
  cpu_alert_pct : Option ℚ
  mem_used_warn_pct : Option ℚ
  mem_used_alert_pct : Option ℚ
  service_allowlist : Option (List String)
deriving DecidableEq

/-- `t[k]` subscripting: raises `KeyError` when the key is missing. -/
def dictGet (v : Option ℚ) (k : String) : Except String ℚ :=
  match v with
  | some x => Except.ok x
  | none => Except.error ("KeyError: " ++ k)

/-- A disk entry; only the fields classification reads are carried
(display-only fields do not affect any claim). -/
structure EDisk where
  Drive : Option String
  FreePercent : Option ℚ
deriving DecidableEq

/-- The resource snapshot. -/
structure EResource where
  CpuLoadPercent : Option ℚ
  MemoryUsedPercent : Option ℚ
deriving DecidableEq

/-- A service entry: the name is read by the findings logic, the other
fields only by the renderer's services table. -/
structure EService where
  Name : Option String
  DisplayName : Option String
  State : Option String
  StartMode : Option String
deriving DecidableEq

/-- The reboot record (`Pending` drives the finding, `Reasons` is read
only by the renderer). -/
structure EReboot where
  Pending : Option Bool
  Reasons : Option (List String)
deriving DecidableEq

/-- The defender record (`Available` and `RealTimeProtectionEnabled`
drive the finding; the renderer's defender table reads all four
fields). -/
structure EDefender where
  Available : Option Bool
  RealTimeProtectionEnabled : Option Bool
  AntivirusEnabled : Option Bool
  Notes : Option String
deriving DecidableEq

/-- `classify_disk(d, t)`: WARN when FreePercent is absent; otherwise the
threshold comparisons, where `t[...]` raises `KeyError` (modelled as
`Except.error`) on a missing key. -/
def classify_disk (d : EDisk) (t : EThresholds) : Except String (String × String) :=
  match d.FreePercent with
  | none => Except.ok ("WARN", "No disk size/free data")
  | some pct => do
    let al ← dictGet t.disk_free_alert_pct "disk_free_alert_pct"
    if pct < al then
      Except.ok ("ALERT", "Low disk space: " ++ fmtFixed 2 pct ++ "% free")
    else do
      let w ← dictGet t.disk_free_warn_pct "disk_free_warn_pct"
      if pct < w then
        Except.ok ("WARN", "Disk space getting low: " ++ fmtFixed 2 pct ++ "% free")
      else
        Except.ok ("OK", "Disk space OK")

/-- The CPU block of `classify_resource`. -/
def cpu_finding (r : EResource) (t : EThresholds) : Except String (String × String × String) :=
  match r.CpuLoadPercent with
  | none => Except.ok ("WARN", "CPU", "CPU load unavailable")
  | some cpu => do
    let al ← dictGet t.cpu_alert_pct "cpu_alert_pct"
    if cpu ≥ al then
      Except.ok ("ALERT", "CPU", "High CPU load: " ++ fmtFixed 2 cpu ++ "%")
    else do
      let w ← dictGet t.cpu_warn_pct "cpu_warn_pct"
      if cpu ≥ w then
        Except.ok ("WARN", "CPU", "Elevated CPU load: " ++ fmtFixed 2 cpu ++ "%")
      else
        Except.ok ("OK", "CPU", "CPU load OK: " ++ fmtFixed 2 cpu ++ "%")

/-- The memory block of `classify_resource`. -/
def mem_finding (r : EResource) (t : EThresholds) : Except String (String × String × String) :=
  match r.MemoryUsedPercent with
  | none => Except.ok ("WARN", "Memory", "Memory usage unavailable")
  | some mem => do
    let al ← dictGet t.mem_used_alert_pct "mem_used_alert_pct"
    if mem ≥ al then
      Except.ok ("ALERT", "Memory", "High memory usage: " ++ fmtFixed 2 mem ++ "%")
    else do
      let w ← dictGet t.mem_used_warn_pct "mem_used_warn_pct"
      if mem ≥ w then
        Except.ok ("WARN", "Memory", "Elevated memory usage: " ++ fmtFixed 2 mem ++ "%")
      else
        Except.ok ("OK", "Memory", "Memory usage OK: " ++ fmtFixed 2 mem ++ "%")

/-- `classify_resource(r, t)`: the CPU block then the memory block, each
appending one (status, category, message) triple to `out`. -/
def classify_resource (r : EResource) (t : EThresholds) :
    Except String (List (String × String × String)) := do
  let c ← cpu_finding r t
  let m ← mem_finding r t
  Except.ok [c, m]

/-- One finding dictionary `{status, category, message}`. -/
structure EFinding where
  status : String
  category : String
  message : String
deriving DecidableEq

/-- The sort key of `main`: `order.get(x["status"], 9)` with
`order = {ALERT: 0, WARN: 1, OK: 2}`. -/
def sevKey (f : EFinding) : ℕ :=
  if f.status = "ALERT" then 0 else if f.status = "WARN" then 1
  else if f.status = "OK" then 2 else 9

/-- The key order of the findings sort. -/
def sevLe (a b : EFinding) : Prop := sevKey a ≤ sevKey b

instance : DecidableRel sevLe := fun _ _ => Nat.decLe _ _

instance : IsTotal EFinding sevLe := ⟨fun _ _ => Nat.le_total _ _⟩

instance : IsTrans EFinding sevLe := ⟨fun _ _ _ h1 h2 => Nat.le_trans h1 h2⟩

/-- `findings.sort(key=...)`: Python `list.sort` is stable, and a stable
sort is uniquely determined by its key order, so it is modelled by
insertion sort on the key. -/
def sortFindings (l : List EFinding) : List EFinding :=
  List.insertionSort sevLe l

/-- The disk loop of `main`: classify each disk and append a finding with
category `"Disk " + drive` for each non-OK status.  (The loop also
annotates the disk dictionary with `_status`/`_note` for display; the
annotation does not affect the findings.) -/
def disk_findings (disks : List EDisk) (t : EThresholds) : Except String (List EFinding) :=
  match disks with
  | [] => Except.ok []
  | d :: rest => do
    let sn ← classify_disk d t
    let tl ← disk_findings rest t
    if sn.1 ≠ "OK" then
      Except.ok ({ status := sn.1, category := "Disk " ++ d.Drive.getD "",
                   message := sn.2 } :: tl)
    else
      Except.ok tl

/-- The CPU/Mem findings loop of `main`. -/
def resource_findings (r : EResource) (t : EThresholds) : Except String (List EFinding) := do
  let entries ← classify_resource r t
  Except.ok ((entries.filter fun e => e.1 ≠ "OK").map fun e =>
    { status := e.1, category := e.2.1, message := e.2.2 })

/-- The services loop of `main`: a name on the allow-list
(case-insensitively, after strip) is skipped, the rest are collected. -/
def auto_stopped_services (services : List EService) (t : EThresholds) : List EService :=
  let allow := (t.service_allowlist.getD []).map pyLower
  services.filter fun s => !(allow.contains (pyLower (pyStrip (s.Name.getD ""))))

/-- The findings assembly of the endpoint `main` (disk, resource,
services, reboot, defender blocks in source order), before sorting. -/
def endpoint_findings (disks : List EDisk) (resource : EResource)
    (services : List EService) (reboot : EReboot) (defender : EDefender)
    (t : EThresholds) : Except String (List EFinding) := do
  let df ← disk_findings disks t
  let rf ← resource_findings resource t
  let svc := auto_stopped_services services t
  let sf : List EFinding :=
    if svc ≠ [] then
      [{ status := "WARN", category := "Services",
         message := toString svc.length ++ " Automatic service(s) not running" }]
    else []
  let rb : List EFinding :=
    if reboot.Pending.getD false then
      [{ status := "WARN", category := "Reboot", message := "Pending reboot detected" }]
    else []
  let dfd : List EFinding :=
    if defender.Available == some true && defender.RealTimeProtectionEnabled == some false then
      [{ status := "WARN", category := "Defender",
         message := "Real-time protection is disabled" }]
    else []
  Except.ok (df ++ rf ++ sf ++ rb ++ dfd)

/-- The failure projection of the endpoint checker's `build_html`, used
by the `main` model: the report object built by `main` always carries its
section keys, but the returned f-string subscripts `thresholds[...]` with
the six threshold keys (in f-string order), raising `KeyError` when one
is missing.  The full renderer is `endpoint_build_html` below;
`endpoint_build_html_check_agrees` proves the two raise identically. -/
def endpoint_build_html_check (t : EThresholds) : Except String Unit := do
  let _ ← dictGet t.disk_free_warn_pct "disk_free_warn_pct"
  let _ ← dictGet t.disk_free_alert_pct "disk_free_alert_pct"
  let _ ← dictGet t.cpu_warn_pct "cpu_warn_pct"
  let _ ← dictGet t.cpu_alert_pct "cpu_alert_pct"
  let _ ← dictGet t.mem_used_warn_pct "mem_used_warn_pct"
  let _ ← dictGet t.mem_used_alert_pct "mem_used_alert_pct"
  Except.ok ()

/-- The write phase of the endpoint `main`: findings are computed (a
`KeyError` there aborts with nothing written) and sorted (the sort,
modelled by `sortFindings`, affects only the report's content, not which
artifacts get written), then `report.json` is written, then `build_html`
runs and `report.html` is written.  Returns the artifact names written, in
order, with the raised error if any. -/
def endpoint_main (t : EThresholds) (disks : List EDisk) (resource : EResource)
    (services : List EService) (reboot : EReboot) (defender : EDefender) :
    List String × Option String :=
  match endpoint_findings disks resource services reboot defender t with
  | Except.error e => ([], some e)
  | Except.ok _findings =>
    match endpoint_build_html_check t with
    | Except.error e => (["report.json"], some e)
    | Except.ok _ => (["report.json", "report.html"], none)

/-- Python `str()` of a bool. -/
def pyBoolStr (b : Bool) : String := if b then "True" else "False"

/-- A table cell for `d.get(k, "")` on a numeric field: empty when the
key is missing, otherwise the number's `str()` rendering. -/
def optNumStr (v : Option ℚ) : String :=
  match v with
  | none => ""
  | some q => qStr q

/-- A table cell for `d.get(k)` on a boolean field: `esc` renders a
`None` as the empty string, a bool as `str()` does. -/
def optBoolStr (v : Option Bool) : String :=
  match v with
  | none => ""
  | some b => pyBoolStr b

/-- `system_info` as the endpoint renderer reads it (scalar JSON values
are carried by their displayed `str()` rendering). -/
structure ESysInfo where
  Hostname : Option String
  OS : Option String
  UptimeHours : Option String
deriving DecidableEq

/-- One annotated disk entry of the report object: the raw display fields
plus the `_status`/`_note` annotations added by `main` (numeric JSON
scalars display via `qStr`, as in the backup renderer). -/
structure EDiskRow where
  Drive : Option String
  SizeGB : Option ℚ
  FreeGB : Option ℚ
  FreePercent : Option ℚ
  VolumeName : Option String
  _status : Option String
  _note : Option String
deriving DecidableEq

/-- The report object `main` hands to the endpoint `build_html`, carrying
the fields the renderer reads (`generated_at` and `resource` are also
serialized to report.json but never read by the renderer). -/
structure EReport where
  thresholds : EThresholds
  system_info : ESysInfo
  disk : List EDiskRow
  auto_services_stopped : List EService
  reboot : EReboot
  defender : EDefender
  findings : List EFinding
deriving DecidableEq

/-- The endpoint checker's `build_html(data)`, assembled exactly as the
source f-string does.  `datetime.now()` is used by the body only to
format the generation timestamp, abstracted here as the already-formatted
`generated` string.  The six `thresholds[...]` subscripts inside the
f-string raise `KeyError` (modelled as `Except.error`) on a missing key;
they are the only fallible operations, and they are evaluated in the
f-string's order. -/
def endpoint_build_html (generated : String) (rep : EReport) : Except String String :=
  let sysinfo := rep.system_info
  let alerts := rep.findings.filter fun x => x.status = "ALERT"
  let warns := rep.findings.filter fun x => x.status = "WARN"
  let summary := make_table ["Host", "OS", "Uptime (hrs)", "Alerts", "Warnings", "Generated"]
    [[sysinfo.Hostname.getD "", sysinfo.OS.getD "", sysinfo.UptimeHours.getD "",
      toString alerts.length, toString warns.length, generated]]
  let findings_tbl := make_table ["Status", "Category", "Details"]
    (rep.findings.map fun f => [badge f.status, f.category, f.message])
  let disks_tbl := make_table ["Drive", "SizeGB", "FreeGB", "Free%", "Volume", "Status", "Notes"]
    (rep.disk.map fun d =>
      [d.Drive.getD "", optNumStr d.SizeGB, optNumStr d.FreeGB, optNumStr d.FreePercent,
       d.VolumeName.getD "", d._status.getD "", d._note.getD ""])
  let services_tbl := make_table ["Name", "DisplayName", "State", "StartMode"]
    (rep.auto_services_stopped.map fun sv =>
      [sv.Name.getD "", sv.DisplayName.getD "", sv.State.getD "", sv.StartMode.getD ""])
  let reboot_line :=
    if rep.reboot.Pending.getD false then "Pending reboot: YES" else "Pending reboot: No"
  let reboot_reasons :=
    match rep.reboot.Reasons with
    | some rs => if rs = [] then "" else String.intercalate ", " rs
    | none => ""
  let defender_tbl := make_table
    ["Available", "RealTimeProtectionEnabled", "AntivirusEnabled", "Notes"]
    [[optBoolStr rep.defender.Available, optBoolStr rep.defender.RealTimeProtectionEnabled,
      optBoolStr rep.defender.AntivirusEnabled, rep.defender.Notes.getD ""]]
  do
  let dw ← dictGet rep.thresholds.disk_free_warn_pct "disk_free_warn_pct"
  let da ← dictGet rep.thresholds.disk_free_alert_pct "disk_free_alert_pct"
  let cw ← dictGet rep.thresholds.cpu_warn_pct "cpu_warn_pct"
  let ca ← dictGet rep.thresholds.cpu_alert_pct "cpu_alert_pct"
  let mw ← dictGet rep.thresholds.mem_used_warn_pct "mem_used_warn_pct"
  let ma ← dictGet rep.thresholds.mem_used_alert_pct "mem_used_alert_pct"
  Except.ok
    ("<!doctype html>\n<html>\n<head>\n  <meta charset=\"utf-8\" />\n  <title>Endpoint Health Report - "
      ++ esc (sysinfo.Hostname.getD "")
      ++ "</title>\n  <style>\n    body \x7b font-family: Segoe UI, Arial, sans-serif; margin: 24px; \x7d\n    h1 \x7b margin-bottom: 6px; \x7d\n    .meta \x7b color: #555; margin-bottom: 18px; \x7d\n    .badge \x7b display: inline-block; padding: 2px 8px; border-radius: 999px; font-weight: 700; font-size: 12px; \x7d\n    .ok \x7b background: #e9f7ef; \x7d\n    .warn \x7b background: #fff4e5; \x7d\n    .bad \x7b background: #fdecea; \x7d\n    table \x7b border-collapse: collapse; width: 100%; margin: 10px 0 22px; \x7d\n    th, td \x7b border: 1px solid #ddd; padding: 8px; font-size: 14px; vertical-align: top; \x7d\n    th \x7b text-align: left; background: #f6f6f6; \x7d\n    code \x7b background: #f4f4f4; padding: 2px 4px; border-radius: 4px; \x7d\n  </style>\n</head>\n<body>\n  <h1>Endpoint Health Report</h1>\n  <div class=\"meta\">\n    <div><b>"
      ++ esc reboot_line
      ++ "</b> "
      ++ esc reboot_reasons
      ++ "</div>\n    <div><b>Thresholds:</b> Disk warn "
      ++ esc (qStr dw)
      ++ "% / alert "
      ++ esc (qStr da)
      ++ "%,\n      CPU warn "
      ++ esc (qStr cw)
      ++ "% / alert "
      ++ esc (qStr ca)
      ++ "%,\n      Mem warn "
      ++ esc (qStr mw)
      ++ "% / alert "
      ++ esc (qStr ma)
      ++ "%</div>\n  </div>\n\n  <h2>Summary</h2>\n  "
      ++ summary
      ++ "\n\n  <h2>Findings</h2>\n  "
      ++ findings_tbl
      ++ "\n\n  <h2>Disks</h2>\n  "
      ++ disks_tbl
      ++ "\n\n  <h2>Auto Services Stopped</h2>\n  "
      ++ services_tbl
      ++ "\n\n  <h2>Defender</h2>\n  "
      ++ defender_tbl
      ++ "\n</body>\n</html>\n")

/-- The text of the endpoint document before the generation timestamp: a
function of the report and the six threshold values alone (the timestamp
sits in the last cell of the summary table, so this prefix ends with that
cell's opening tag). -/
def endpoint_html_pre (rep : EReport) (dw da cw ca mw ma : ℚ) : String :=
  let sysinfo := rep.system_info
  let alerts := rep.findings.filter fun x => x.status = "ALERT"
  let warns := rep.findings.filter fun x => x.status = "WARN"
  let reboot_line :=
    if rep.reboot.Pending.getD false then "Pending reboot: YES" else "Pending reboot: No"
  let reboot_reasons :=
    match rep.reboot.Reasons with
    | some rs => if rs = [] then "" else String.intercalate ", " rs
    | none => ""
  "<!doctype html>\n<html>\n<head>\n  <meta charset=\"utf-8\" />\n  <title>Endpoint Health Report - "
    ++ esc (sysinfo.Hostname.getD "")
    ++ "</title>\n  <style>\n    body \x7b font-family: Segoe UI, Arial, sans-serif; margin: 24px; \x7d\n    h1 \x7b margin-bottom: 6px; \x7d\n    .meta \x7b color: #555; margin-bottom: 18px; \x7d\n    .badge \x7b display: inline-block; padding: 2px 8px; border-radius: 999px; font-weight: 700; font-size: 12px; \x7d\n    .ok \x7b background: #e9f7ef; \x7d\n    .warn \x7b background: #fff4e5; \x7d\n    .bad \x7b background: #fdecea; \x7d\n    table \x7b border-collapse: collapse; width: 100%; margin: 10px 0 22px; \x7d\n    th, td \x7b border: 1px solid #ddd; padding: 8px; font-size: 14px; vertical-align: top; \x7d\n    th \x7b text-align: left; background: #f6f6f6; \x7d\n    code \x7b background: #f4f4f4; padding: 2px 4px; border-radius: 4px; \x7d\n  </style>\n</head>\n<body>\n  <h1>Endpoint Health Report</h1>\n  <div class=\"meta\">\n    <div><b>"
    ++ esc reboot_line
    ++ "</b> "
    ++ esc reboot_reasons
    ++ "</div>\n    <div><b>Thresholds:</b> Disk warn "
    ++ esc (qStr dw)
    ++ "% / alert "
    ++ esc (qStr da)
    ++ "%,\n      CPU warn "
    ++ esc (qStr cw)
    ++ "% / alert "
    ++ esc (qStr ca)
    ++ "%,\n      Mem warn "
    ++ esc (qStr mw)
    ++ "% / alert "
    ++ esc (qStr ma)
    ++ "%</div>\n  </div>\n\n  <h2>Summary</h2>\n  "
    ++ "<table><thead><tr>"
    ++ strJoin (["Host", "OS", "Uptime (hrs)", "Alerts", "Warnings", "Generated"].map
        fun h => "<th>" ++ esc h ++ "</th>")
    ++ "</tr></thead><tbody>"
    ++ "<tr>"
    ++ ("<td>" ++ esc (sysinfo.Hostname.getD "") ++ "</td>")
    ++ ("<td>" ++ esc (sysinfo.OS.getD "") ++ "</td>")
    ++ ("<td>" ++ esc (sysinfo.UptimeHours.getD "") ++ "</td>")
    ++ ("<td>" ++ esc (toString alerts.length) ++ "</td>")
    ++ ("<td>" ++ esc (toString warns.length) ++ "</td>")
    ++ "<td>"

/-- The text of the endpoint document after the generation timestamp: a
function of the report alone — the renderer reads the already-classified
findings and annotations, it computes no severity. -/
def endpoint_html_post (rep : EReport) : String :=
  let findings_tbl := make_table ["Status", "Category", "Details"]
    (rep.findings.map fun f => [badge f.status, f.category, f.message])
  let disks_tbl := make_table ["Drive", "SizeGB", "FreeGB", "Free%", "Volume", "Status", "Notes"]
    (rep.disk.map fun d =>
      [d.Drive.getD "", optNumStr d.SizeGB, optNumStr d.FreeGB, optNumStr d.FreePercent,
       d.VolumeName.getD "", d._status.getD "", d._note.getD ""])
  let services_tbl := make_table ["Name", "DisplayName", "State", "StartMode"]
    (rep.auto_services_stopped.map fun sv =>
      [sv.Name.getD "", sv.DisplayName.getD "", sv.State.getD "", sv.StartMode.getD ""])
  let defender_tbl := make_table
    ["Available", "RealTimeProtectionEnabled", "AntivirusEnabled", "Notes"]
    [[optBoolStr rep.defender.Available, optBoolStr rep.defender.RealTimeProtectionEnabled,
      optBoolStr rep.defender.AntivirusEnabled, rep.defender.Notes.getD ""]]
  "</td>"
    ++ "</tr>"
    ++ "</tbody></table>"
    ++ "\n\n  <h2>Findings</h2>\n  "
    ++ findings_tbl
    ++ "\n\n  <h2>Disks</h2>\n  "
    ++ disks_tbl
    ++ "\n\n  <h2>Auto Services Stopped</h2>\n  "
    ++ services_tbl
    ++ "\n\n  <h2>Defender</h2>\n  "
    ++ defender_tbl
    ++ "\n</body>\n</html>\n"

/- ## backup-verifier/src/report.py -/

/-- Days from 1970-01-01 of a proleptic-Gregorian civil date. -/
def daysFromCivil (y : ℤ) (m d : ℕ) : ℤ :=
  let y' : ℤ := if m ≤ 2 then y - 1 else y
  let era : ℤ := y' / 400
  let yoe : ℤ := y' - era * 400
  let mp : ℤ := ((m : ℤ) + 9) % 12
  let doy : ℤ := (153 * mp + 2) / 5 + (d : ℤ) - 1
  let doe : ℤ := yoe * 365 + yoe / 4 - yoe / 100 + doy
  era * 146097 + doe - 719468

/-- Civil date from days since the epoch (inverse of `daysFromCivil`). -/
def civilFromDays (z : ℤ) : ℤ × ℕ × ℕ :=
  let z' := z + 719468
  let era := z' / 146097
  let doe := z' - era * 146097
  let yoe := (doe - doe / 1460 + doe / 36524 - doe / 146096) / 365
  let y := yoe + era * 400
  let doy := doe - (365 * yoe + yoe / 4 - yoe / 100)
  let mp := (5 * doy + 2) / 153
  let d := doy - (153 * mp + 2) / 5 + 1
  let m := if mp < 10 then mp + 3 else mp - 9
  ((if m ≤ 2 then y + 1 else y), m.toNat, d.toNat)

/-- Day count of a month, for date validation. -/
def daysInMonth (y : ℤ) (m : ℕ) : ℕ :=
  if m = 2 then (if (y % 4 = 0 && y % 100 ≠ 0) || y % 400 = 0 then 29 else 28)
  else if m = 4 || m = 6 || m = 9 || m = 11 then 30 else 31

/-- `datetime.fromisoformat` modelled for "YYYY-MM-DD", optionally
followed by one separator character and "HH:MM" or "HH:MM:SS" (the forms
arising in this data; fractional seconds and offsets are not modelled).
The value is a timestamp in seconds; `none` models a raised error. -/
def isoParse (t : String) : Option ℚ :=
  match t.data with
  | y1 :: y2 :: y3 :: y4 :: '-' :: m1 :: m2 :: '-' :: d1 :: d2 :: rest =>
    if [y1, y2, y3, y4, m1, m2, d1, d2].all Char.isDigit then
      let y : ℕ := natVal [y1, y2, y3, y4]
      let mo := natVal [m1, m2]
      let da := natVal [d1, d2]
      if 1 ≤ y && 1 ≤ mo && mo ≤ 12 && 1 ≤ da && da ≤ daysInMonth y mo then
        let dayPart : ℚ := qmul (qint (daysFromCivil y mo da)) (qnat 86400)
        match rest with
        | [] => some dayPart
        | _ :: h1 :: h2 :: ':' :: mi1 :: mi2 :: restT =>
          if [h1, h2, mi1, mi2].all Char.isDigit then
            let hh := natVal [h1, h2]
            let mi := natVal [mi1, mi2]
            match restT with
            | [] =>
              if hh ≤ 23 && mi ≤ 59 then some (qadd dayPart (qnat (hh * 3600 + mi * 60)))
              else none
            | ':' :: s1 :: s2 :: [] =>
              if [s1, s2].all Char.isDigit && hh ≤ 23 && mi ≤ 59 && natVal [s1, s2] ≤ 59 then
                some (qadd dayPart (qnat (hh * 3600 + mi * 60 + natVal [s1, s2])))
              else none
            | _ => none
          else none
        | _ => none
      else none
    else none
  | _ => none

/-- `parse_dt(s)`: strip; empty gives `None`; otherwise ISO parsing with
`None` on failure. -/
def parse_dt (s : String) : Option ℚ :=
  let t := pyStrip s
  if t = "" then none else isoParse t

/-- `days_since(dt, now)`: `None` propagates, otherwise
`(now - dt).total_seconds() / 86400.0`. -/
def days_since (dt : Option ℚ) (now : ℚ) : Option ℚ :=
  match dt with
  | none => none
  | some d => some (qdivn (qsub now d) 86400)

/-- The `Job` dataclass. -/
structure Job where
  job_name : String
  last_run : Option ℚ
  last_result : String
  last_success : Option ℚ
  duration_minutes : Option ℚ
  notes : String
deriving DecidableEq

/-- A raw CSV row as `Job.from_row` receives it; `none` models a missing
column (`r.get(k)` giving `None`). -/
structure JobRow where
  job_name : Option String
  last_run : Option String
  last_result : Option String
  last_success : Option String
  duration_minutes : Option String
  notes : Option String

/-- `Job.from_row(r)`: never raises; absent or empty fields become the
empty string or `None`, a non-numeric duration becomes `None`. -/
def Job.from_row (r : JobRow) : Job :=
  let dur_raw := pyStrip (r.duration_minutes.getD "")
  let dur : Option ℚ := if dur_raw = "" then none else parseDecimal dur_raw
  { job_name := pyStrip (r.job_name.getD "")
    last_run := parse_dt (r.last_run.getD "")
    last_result := pyStrip (r.last_result.getD "")
    last_success := parse_dt (r.last_success.getD "")
    duration_minutes := dur
    notes := pyStrip (r.notes.getD "") }

/-- The backup thresholds dictionary; a field is `none` when its key is
missing (defaults are applied at the `t.get` call sites, as in the
source). -/
structure BThresholds where
  allowed_success_values : Option (List String)
  allowed_warning_values : Option (List String)
  allowed_fail_values : Option (List String)
  fail_on_warning_result : Option Bool
  warning_days : Option ℚ
  stale_days : Option ℚ
deriving DecidableEq

/-- `classify_job(job, now, t)`.  The Python early returns are expressed
as a nested conditional with identical branch order: failed results,
escalated warning results, then the `base` status combined with the
staleness checks on `days_since(job.last_success, now)`. -/
def classify_job (job : Job) (now : ℚ) (t : BThresholds) : String × String :=
  let _allowed_success := (t.allowed_success_values.getD ["success"]).map pyLower
  let allowed_warn := (t.allowed_warning_values.getD ["warning"]).map pyLower
  let allowed_fail := (t.allowed_fail_values.getD ["failed", "error"]).map pyLower
  let res := pyLower job.last_result
  if allowed_fail.contains res then
    ("ALERT", "Last result is " ++ job.last_result)
  else if allowed_warn.contains res && t.fail_on_warning_result.getD false then
    ("ALERT", "Last result is " ++ job.last_result)
  else
    let base : String × String :=
      if allowed_warn.contains res then ("WARN", "Last result is " ++ job.last_result)
      else ("OK", "Last result OK")
    let warn_days : ℚ := t.warning_days.getD 2
    let stale_days : ℚ := t.stale_days.getD 3
    match days_since job.last_success now with
    | none => ("ALERT", "No last_success timestamp")
    | some d =>
      if d ≥ stale_days then
        ("ALERT", "Stale: last success " ++ fmtFixed 1 d ++ " days ago")
      else if d ≥ warn_days then
        if base.1 = "OK" then
          ("WARN", "Approaching stale: last success " ++ fmtFixed 1 d ++ " days ago")
        else
          ("WARN", base.2 ++ "; also last success " ++ fmtFixed 1 d ++ " days ago")
      else base

/-- The escalation-adjusted categorical severity of a job result: failed
results are ALERT, warning results are WARN (ALERT when the
fail_on_warning_result policy escalates), anything else is OK. -/
def catSeverity (job : Job) (t : BThresholds) : String :=
  let allowed_warn := (t.allowed_warning_values.getD ["warning"]).map pyLower
  let allowed_fail := (t.allowed_fail_values.getD ["failed", "error"]).map pyLower
  let res := pyLower job.last_result
  if allowed_fail.contains res then "ALERT"
  else if allowed_warn.contains res then
    (if t.fail_on_warning_result.getD false then "ALERT" else "WARN")
  else "OK"

/-- The staleness severity: days since last success at or past stale_days
is ALERT, at or past warning_days is WARN, else OK. -/
def staleSeverity (d : ℚ) (t : BThresholds) : String :=
  if d ≥ t.stale_days.getD 3 then "ALERT"
  else if d ≥ t.warning_days.getD 2 then "WARN" else "OK"

/-- Two-digit zero padding. -/
def pad2 (n : ℕ) : String := padZeros 2 (toString n)

/-- `dt.isoformat(sep="T", timespec="seconds")` on a seconds timestamp. -/
def isoformatSec (ts : ℚ) : String :=
  let total : ℤ := qfloor ts
  let day : ℤ := total / 86400
  let secs : ℕ := (total % 86400).toNat
  let ymd := civilFromDays day
  padZeros 4 (toString ymd.1) ++ "-" ++ pad2 ymd.2.1 ++ "-" ++ pad2 ymd.2.2 ++ "T" ++
    pad2 (secs / 3600) ++ ":" ++ pad2 ((secs % 3600) / 60) ++ ":" ++ pad2 (secs % 60)

/-- One entry of `results` in the backup `main`; every field is the
rendered display string, as in the source. -/
structure BResult where
  job_name : String
  last_result : String
  last_run : String
  last_success : String
  days_since_success : String
  duration_minutes : String
  status : String
  reason : String
  notes : String
deriving DecidableEq

/-- The body of the `for job in jobs` loop in the backup `main`. -/
def result_of_job (now : ℚ) (t : BThresholds) (job : Job) : BResult :=
  let sr := classify_job job now t
  let d := days_since job.last_success now
  { job_name := job.job_name
    last_result := job.last_result
    last_run := match job.last_run with | some v => isoformatSec v | none => ""
    last_success := match job.last_success with | some v => isoformatSec v | none => ""
    days_since_success := match d with | some dv => fmtFixed 2 dv | none => ""
    duration_minutes := match job.duration_minutes with | some dv => fmtFixed 1 dv | none => ""
    status := sr.1
    reason := sr.2
    notes := job.notes }

/-- The backup `main` sort key: severity rank, then days-since-success
descending (re-parsed from the rendered string; empty or unparseable reads
0.0). -/
def bSortKey (r : BResult) : ℕ × ℚ :=
  let o : ℕ :=
    if r.status = "ALERT" then 0 else if r.status = "WARN" then 1
    else if r.status = "OK" then 2 else 9
  let d : ℚ :=
    if r.days_since_success = "" then 0
    else (parseDecimal r.days_since_success).getD 0
  (o, qneg d)

/-- `results.sort(key=sort_key)`: stable sort under the lexicographic key
order. -/
def sortResults (l : List BResult) : List BResult :=
  List.insertionSort (fun a b =>
    (bSortKey a).1 < (bSortKey b).1 ∨
    ((bSortKey a).1 = (bSortKey b).1 ∧ (bSortKey a).2 ≤ (bSortKey b).2)) l

/-- The backup `main` results pipeline: one result per job, in input
order, then the sort. -/
def backup_results (now : ℚ) (t : BThresholds) (jobs : List Job) : List BResult :=
  sortResults (jobs.map (result_of_job now t))

/-- `build_html(now, jobs, t, results)` of the backup verifier, assembled
exactly as the source f-string does.  `now` is used by the body only to
format the generation timestamp, abstracted here as the already-formatted
`generated` string; the `jobs` parameter is unused by the source body and
omitted. -/
def bbuild_html (generated : String) (t : BThresholds) (results : List BResult) : String :=
  let total := results.length
  let alerts := (results.filter fun r => r.status = "ALERT").length
  let warns := (results.filter fun r => r.status = "WARN").length
  let oks := (results.filter fun r => r.status = "OK").length
  let summary := make_table ["Total Jobs", "OK", "Warnings", "Alerts", "Stale Threshold"]
    [[toString total, toString oks, toString warns, toString alerts,
      qStr (t.stale_days.getD 3) ++ " days"]]
  let all_rows := results.map fun r =>
    [badge r.status, r.job_name, r.last_result, r.last_run, r.last_success,
     r.days_since_success, r.duration_minutes, r.reason]
  let alert_rows := (results.filter fun r => r.status = "ALERT").map fun r =>
    [r.job_name, r.last_result, r.last_success, r.days_since_success, r.reason]
  let warn_rows := (results.filter fun r => r.status = "WARN").map fun r =>
    [r.job_name, r.last_result, r.last_success, r.days_since_success, r.reason]
  let alerts_tbl := make_table
    ["Job", "Last Result", "Last Success", "Days Since Success", "Reason"] alert_rows
  let warns_tbl := make_table
    ["Job", "Last Result", "Last Success", "Days Since Success", "Reason"] warn_rows
  let all_tbl := make_table
    ["Status", "Job", "Last Result", "Last Run", "Last Success", "Days Since Success",
     "Duration (min)", "Notes"] all_rows
  "<!doctype html>\n<html>\n<head>\n  <meta charset=\"utf-8\" />\n  <title>Backup Verification Report</title>\n  <style>\n    body \x7b font-family: Segoe UI, Arial, sans-serif; margin: 24px; \x7d\n    h1 \x7b margin-bottom: 6px; \x7d\n    .meta \x7b color: #555; margin-bottom: 18px; \x7d\n    .badge \x7b display: inline-block; padding: 2px 8px; border-radius: 999px; font-weight: 700; font-size: 12px; \x7d\n    .ok \x7b background: #e9f7ef; \x7d\n    .warn \x7b background: #fff4e5; \x7d\n    .bad \x7b background: #fdecea; \x7d\n    table \x7b border-collapse: collapse; width: 100%; margin: 10px 0 22px; \x7d\n    th, td \x7b border: 1px solid #ddd; padding: 8px; font-size: 14px; vertical-align: top; \x7d\n    th \x7b text-align: left; background: #f6f6f6; \x7d\n    code \x7b background: #f4f4f4; padding: 2px 4px; border-radius: 4px; \x7d\n  </style>\n</head>\n<body>\n  <h1>Backup Verification Report</h1>\n  <div class=\"meta\">\n    <div><b>Generated:</b> "
    ++ esc generated
    ++ "</div>\n    <div><b>Stale threshold:</b> "
    ++ esc (qStr (t.stale_days.getD 3))
    ++ " days since last successful backup</div>\n  </div>\n\n  <h2>Summary</h2>\n  "
    ++ summary
    ++ "\n\n  <h2>Alerts</h2>\n  "
    ++ alerts_tbl
    ++ "\n\n  <h2>Warnings</h2>\n  "
    ++ warns_tbl
    ++ "\n\n  <h2>All Jobs</h2>\n  "
    ++ all_tbl
    ++ "\n</body>\n</html>\n"

/-- The fixed text of the rendered document before the generation
timestamp (independent of thresholds and results). -/
def bhPre : String :=
  "<!doctype html>\n<html>\n<head>\n  <meta charset=\"utf-8\" />\n  <title>Backup Verification Report</title>\n  <style>\n    body \x7b font-family: Segoe UI, Arial, sans-serif; margin: 24px; \x7d\n    h1 \x7b margin-bottom: 6px; \x7d\n    .meta \x7b color: #555; margin-bottom: 18px; \x7d\n    .badge \x7b display: inline-block; padding: 2px 8px; border-radius: 999px; font-weight: 700; font-size: 12px; \x7d\n    .ok \x7b background: #e9f7ef; \x7d\n    .warn \x7b background: #fff4e5; \x7d\n    .bad \x7b background: #fdecea; \x7d\n    table \x7b border-collapse: collapse; width: 100%; margin: 10px 0 22px; \x7d\n    th, td \x7b border: 1px solid #ddd; padding: 8px; font-size: 14px; vertical-align: top; \x7d\n    th \x7b text-align: left; background: #f6f6f6; \x7d\n    code \x7b background: #f4f4f4; padding: 2px 4px; border-radius: 4px; \x7d\n  </style>\n</head>\n<body>\n  <h1>Backup Verification Report</h1>\n  <div class=\"meta\">\n    <div><b>Generated:</b> "

/-- The text of the rendered document after the generation timestamp: a
function of the thresholds and the (already classified and sorted)
results only — rendering reads severities, it never computes them. -/
def bhPost (t : BThresholds) (results : List BResult) : String :=
  let total := results.length
  let alerts := (results.filter fun r => r.status = "ALERT").length
  let warns := (results.filter fun r => r.status = "WARN").length
  let oks := (results.filter fun r => r.status = "OK").length
  let summary := make_table ["Total Jobs", "OK", "Warnings", "Alerts", "Stale Threshold"]
    [[toString total, toString oks, toString warns, toString alerts,
      qStr (t.stale_days.getD 3) ++ " days"]]
  let all_rows := results.map fun r =>
    [badge r.status, r.job_name, r.last_result, r.last_run, r.last_success,
     r.days_since_success, r.duration_minutes, r.reason]
  let alert_rows := (results.filter fun r => r.status = "ALERT").map fun r =>
    [r.job_name, r.last_result, r.last_success, r.days_since_success, r.reason]
  let warn_rows := (results.filter fun r => r.status = "WARN").map fun r =>
    [r.job_name, r.last_result, r.last_success, r.days_since_success, r.reason]
  let alerts_tbl := make_table
    ["Job", "Last Result", "Last Success", "Days Since Success", "Reason"] alert_rows
  let warns_tbl := make_table
    ["Job", "Last Result", "Last Success", "Days Since Success", "Reason"] warn_rows
  let all_tbl := make_table
    ["Status", "Job", "Last Result", "Last Run", "Last Success", "Days Since Success",
     "Duration (min)", "Notes"] all_rows
  "</div>\n    <div><b>Stale threshold:</b> "
    ++ esc (qStr (t.stale_days.getD 3))
    ++ " days since last successful backup</div>\n  </div>\n\n  <h2>Summary</h2>\n  "
    ++ summary
    ++ "\n\n  <h2>Alerts</h2>\n  "
    ++ alerts_tbl
    ++ "\n\n  <h2>Warnings</h2>\n  "
    ++ warns_tbl
    ++ "\n\n  <h2>All Jobs</h2>\n  "
    ++ all_tbl
    ++ "\n</body>\n</html>\n"

/- ## Claim verification -/

theorem qnat_eq (n : ℕ) : qnat n = (n : ℚ) := by
  simp [qnat, Rat.mkRat_one]

theorem qint_eq (z : ℤ) : qint z = (z : ℚ) := by
  simp [qint, Rat.mkRat_one]

theorem qadd_eq (a b : ℚ) : qadd a b = a + b := by
  rw [qadd, Rat.add_def']

theorem qsub_eq (a b : ℚ) : qsub a b = a - b := by
  rw [qsub, Rat.sub_def']

theorem qmul_eq (a b : ℚ) : qmul a b = a * b := by
  rw [qmul]
  conv_rhs => rw [← Rat.mkRat_self a, ← Rat.mkRat_self b]
  rw [Rat.mkRat_mul_mkRat]

theorem qneg_eq (a : ℚ) : qneg a = -a := by
  rw [qneg, ← Rat.neg_mkRat, Rat.mkRat_self]

theorem qfloor_eq (q : ℚ) : qfloor q = ⌊q⌋ := Rat.floor_def.symm

theorem qdivn_eq (a : ℚ) (n : ℕ) : qdivn a n = a / (n : ℚ) := by
  rw [qdivn, Rat.mkRat_eq_divInt, Rat.divInt_eq_div]
  push_cast
  rw [← div_div, Rat.num_div_den]

/-- `Except` bind reduction on a success value. -/
theorem except_bind_ok {e a b : Type} (v : a) (f : a → Except e b) :
    (Except.ok v >>= f) = f v := rfl

/-- `Except` bind reduction on an error value. -/
theorem except_bind_error {e a b : Type} (err : e) (f : a → Except e b) :
    ((Except.error err : Except e a) >>= f) = Except.error err := rfl

/-- Stability of ordered insertion on a key order: filtering by any
predicate that is constant-key keeps the original relative order. -/
theorem orderedInsert_filter_key {α : Type} (k : α → ℕ) (p : α → Bool)
    (hp : ∀ x y, p x → p y → k x = k y) (a : α) (l : List α) :
    (List.orderedInsert (fun x y => k x ≤ k y) a l).filter p =
      if p a then a :: l.filter p else l.filter p := by
  induction l with
  | nil =>
    simp only [List.orderedInsert, List.filter]
    cases hpa : p a <;> simp [hpa]
  | cons b l ih =>
    by_cases hab : k a ≤ k b
    · simp only [List.orderedInsert, if_pos hab]
      by_cases hpa : p a <;> simp [List.filter_cons, hpa]
    · simp only [List.orderedInsert, if_neg hab]
      by_cases hpa : p a
      · have hpb : ¬ p b := fun hpb => hab (Nat.le_of_eq (hp a b hpa hpb))
        simp [List.filter_cons, hpa, hpb, ih]
      · simp [List.filter_cons, hpa, ih]

/-- Stability of insertion sort on a key order. -/
theorem insertionSort_filter_key {α : Type} (k : α → ℕ) (p : α → Bool)
    (hp : ∀ x y, p x → p y → k x = k y) (l : List α) :
    (List.insertionSort (fun x y => k x ≤ k y) l).filter p = l.filter p := by
  induction l with
  | nil => rfl
  | cons a l ih =>
    rw [List.insertionSort, orderedInsert_filter_key k p hp, ih, List.filter_cons]

/-- C6: the findings aggregator sorts with severity as the primary key in
the order ALERT, WARN, OK, and the sort is stable: the concrete scenario
[ALERT(A), WARN(B), OK(C), ALERT(D)] comes out as
[ALERT(A), ALERT(D), WARN(B), OK(C)], every output is ordered by the
severity key, and the findings of any one status keep their relative
input order. -/
theorem c6_sort_stable :
    (sortFindings [⟨"ALERT", "A", ""⟩, ⟨"WARN", "B", ""⟩, ⟨"OK", "C", ""⟩, ⟨"ALERT", "D", ""⟩] =
      [⟨"ALERT", "A", ""⟩, ⟨"ALERT", "D", ""⟩, ⟨"WARN", "B", ""⟩, ⟨"OK", "C", ""⟩]) ∧
    (∀ l : List EFinding, (sortFindings l).Sorted sevLe) ∧
    (∀ (l : List EFinding) (s : String),
      (sortFindings l).filter (fun f => f.status == s) = l.filter (fun f => f.status == s)) := by
  refine ⟨by decide, fun l => List.sorted_insertionSort sevLe l, fun l s => ?_⟩
  have hp : ∀ x y : EFinding, (x.status == s) → (y.status == s) → sevKey x = sevKey y := by
    intro x y hx hy
    have hx' : x.status = s := by simpa using hx
    have hy' : y.status = s := by simpa using hy
    simp only [sevKey, hx', hy']
  exact insertionSort_filter_key sevKey (fun f => f.status == s) hp l

/-- C1 counterexample: a performance-counter record for a monitored
(thresholded) counter whose Avg and Max values are absent classifies as
OK — the absent values are read as 0 by `read_perf_summary`, so the claim
that absence never yields OK is false for the perf check kind. -/
theorem c1_counterexample :
    (read_perf_row ⟨some "\\\\HOST\\processor(_total)\\% processor time", none, none, none⟩).map
        PerfEntry.status = some "OK" := by
  decide

/-- C1 (amended): a disk record with FreePercent absent classifies WARN,
and a resource record with CPU or memory absent yields a WARN entry for
that metric; but the rule is not uniform across check kinds: a perf-counter
row with absent Avg/Max is classified as the value 0 (which can be OK). -/
theorem c1_absent_values_amended :
    (∀ (d : EDisk) (t : EThresholds), d.FreePercent = none →
      classify_disk d t = Except.ok ("WARN", "No disk size/free data")) ∧
    (∀ (r : EResource) (t : EThresholds), r.CpuLoadPercent = none →
      cpu_finding r t = Except.ok ("WARN", "CPU", "CPU load unavailable")) ∧
    (∀ (r : EResource) (t : EThresholds), r.MemoryUsedPercent = none →
      mem_finding r t = Except.ok ("WARN", "Memory", "Memory usage unavailable")) ∧
    (∀ c : Option String,
      (read_perf_row ⟨c, none, none, none⟩).map PerfEntry.status =
        some ((classify_perf (normalize_counter_path (c.getD "")) 0 0).1)) := by
  refine ⟨fun d t h => ?_, fun r t h => ?_, fun r t h => ?_, fun c => ?_⟩
  · simp [classify_disk, h]
  · simp [cpu_finding, h]
  · simp [mem_finding, h]
  · have h0 : csvNumField none = some 0 := by decide
    simp [read_perf_row, h0]

/-- C1 witness: the amended statement evaluated at concrete records. -/
theorem c1_absent_values_amended_witness :
    classify_disk ⟨some "C", none⟩ ⟨none, none, none, none, none, none, none⟩
        = Except.ok ("WARN", "No disk size/free data") ∧
    cpu_finding ⟨none, some 50⟩ ⟨none, none, none, none, none, none, none⟩
        = Except.ok ("WARN", "CPU", "CPU load unavailable") ∧
    mem_finding ⟨some 50, none⟩ ⟨none, none, none, none, none, none, none⟩
        = Except.ok ("WARN", "Memory", "Memory usage unavailable") ∧
    (read_perf_row ⟨some "\\\\H\\memory\\available mbytes", none, none, none⟩).map
        PerfEntry.status =
      some ((classify_perf (normalize_counter_path "\\\\H\\memory\\available mbytes") 0 0).1) :=
  ⟨c1_absent_values_amended.1 _ _ rfl,
   c1_absent_values_amended.2.1 _ _ rfl,
   c1_absent_values_amended.2.2.1 _ _ rfl,
   c1_absent_values_amended.2.2.2 _⟩

/-- C5: a value at or past the alert boundary forces ALERT, independent of
the warn boundary: for `classify_perf`, avg or max at or above `alert` (at
or below `alert_low` for the low-is-bad metric) gives ALERT; for
`classify_resource`, a CPU or memory percentage at or above its alert
boundary makes that metric's entry ALERT. -/
theorem c5_alert_dominates :
    (∀ (norm : String) (w a avg maxv : ℚ), perfThresholds norm = some (PerfBounds.highBad w a) →
      (a ≤ avg ∨ a ≤ maxv) → (classify_perf norm avg maxv).1 = "ALERT") ∧
    (∀ (norm : String) (wl al avg maxv : ℚ), perfThresholds norm = some (PerfBounds.lowBad wl al) →
      (avg ≤ al ∨ maxv ≤ al) → (classify_perf norm avg maxv).1 = "ALERT") ∧
    (∀ (r : EResource) (t : EThresholds) (c ca : ℚ) (out : List (String × String × String)),
      r.CpuLoadPercent = some c → t.cpu_alert_pct = some ca → ca ≤ c →
      classify_resource r t = Except.ok out →
      out.head? = some ("ALERT", "CPU", "High CPU load: " ++ fmtFixed 2 c ++ "%")) ∧
    (∀ (r : EResource) (t : EThresholds) (m ma : ℚ) (out : List (String × String × String)),
      r.MemoryUsedPercent = some m → t.mem_used_alert_pct = some ma → ma ≤ m →
      classify_resource r t = Except.ok out →
      out.getLast? = some ("ALERT", "Memory", "High memory usage: " ++ fmtFixed 2 m ++ "%")) := by
  refine ⟨?_, ?_, ?_, ?_⟩
  · intro norm w a avg maxv hth hcross
    rw [classify_perf, hth]
    dsimp only
    rw [if_pos (show maxv ≥ a ∨ avg ≥ a by
      rcases hcross with h | h; exacts [Or.inr h, Or.inl h])]
  · intro norm wl al avg maxv hth hcross
    rw [classify_perf, hth]
    dsimp only
    rw [if_pos (show maxv ≤ al ∨ avg ≤ al by
      rcases hcross with h | h; exacts [Or.inr h, Or.inl h])]
  · intro r t c ca out hr hca hle hout
    have hcpu : cpu_finding r t =
        Except.ok ("ALERT", "CPU", "High CPU load: " ++ fmtFixed 2 c ++ "%") := by
      rw [cpu_finding, hr, hca]
      simp only [dictGet, except_bind_ok]
      rw [if_pos (show c ≥ ca from hle)]
    rw [classify_resource, hcpu, except_bind_ok] at hout
    cases hm : mem_finding r t with
    | error e =>
      rw [hm, except_bind_error] at hout
      exact Except.noConfusion hout
    | ok mv =>
      rw [hm, except_bind_ok] at hout
      cases hout
      rfl
  · intro r t m ma out hr hma hle hout
    have hmem : mem_finding r t =
        Except.ok ("ALERT", "Memory", "High memory usage: " ++ fmtFixed 2 m ++ "%") := by
      rw [mem_finding, hr, hma]
      simp only [dictGet, except_bind_ok]
      rw [if_pos (show m ≥ ma from hle)]
    cases hc : cpu_finding r t with
    | error e =>
      rw [classify_resource, hc, except_bind_error] at hout
      exact Except.noConfusion hout
    | ok cv =>
      rw [classify_resource, hc, except_bind_ok, hmem, except_bind_ok] at hout
      cases hout
      simp [List.getLast?]

/-- C5 witness: concrete alert-boundary crossings for each conjunct. -/
theorem c5_alert_dominates_witness :
    (classify_perf "\\processor(_total)\\% processor time" 90 0).1 = "ALERT" ∧
    (classify_perf "\\memory\\available mbytes" 100 100).1 = "ALERT" ∧
    ((classify_resource ⟨some 95, some 10⟩ ⟨none, none, some 70, some 85, some 70, some 85, none⟩
        = Except.ok [("ALERT", "CPU", "High CPU load: " ++ fmtFixed 2 (95 : ℚ) ++ "%"),
                     ("OK", "Memory", "Memory usage OK: " ++ fmtFixed 2 (10 : ℚ) ++ "%")]) ∧
      [("ALERT", "CPU", "High CPU load: " ++ fmtFixed 2 (95 : ℚ) ++ "%"),
       ("OK", "Memory", "Memory usage OK: " ++ fmtFixed 2 (10 : ℚ) ++ "%")].head? =
        some ("ALERT", "CPU", "High CPU load: " ++ fmtFixed 2 (95 : ℚ) ++ "%")) ∧
    ((classify_resource ⟨some 10, some 95⟩ ⟨none, none, some 70, some 85, some 70, some 85, none⟩
        = Except.ok [("OK", "CPU", "CPU load OK: " ++ fmtFixed 2 (10 : ℚ) ++ "%"),
                     ("ALERT", "Memory", "High memory usage: " ++ fmtFixed 2 (95 : ℚ) ++ "%")]) ∧
      [("OK", "CPU", "CPU load OK: " ++ fmtFixed 2 (10 : ℚ) ++ "%"),
       ("ALERT", "Memory", "High memory usage: " ++ fmtFixed 2 (95 : ℚ) ++ "%")].getLast? =
        some ("ALERT", "Memory", "High memory usage: " ++ fmtFixed 2 (95 : ℚ) ++ "%")) := by
  refine ⟨c5_alert_dominates.1 _ 70 85 _ _ (by decide) (Or.inl (by decide)),
          c5_alert_dominates.2.1 _ 1024 512 _ _ (by decide) (Or.inl (by decide)),
          ⟨by decide,
           c5_alert_dominates.2.2.1 ⟨some 95, some 10⟩
             ⟨none, none, some 70, some 85, some 70, some 85, none⟩ 95 85 _ rfl rfl
             (by decide) (by decide)⟩,
          ⟨by decide,
           c5_alert_dominates.2.2.2 ⟨some 10, some 95⟩
             ⟨none, none, some 70, some 85, some 70, some 85, none⟩ 95 85 _ rfl rfl
             (by decide) (by decide)⟩⟩

/-- C3 counterexample: with an empty thresholds file and empty inputs, the
endpoint checker writes `report.json` and then fails inside `build_html`
(missing `disk_free_warn_pct`), leaving exactly one of the two artifacts —
a failure during HTML rendering after the JSON artifact was written. -/
theorem c3_counterexample :
    endpoint_main ⟨none, none, none, none, none, none, none⟩ [] ⟨none, none⟩ [] ⟨none, none⟩
        ⟨none, none, none, none⟩ = (["report.json"], some "KeyError: disk_free_warn_pct") := by
  decide

/-- C3 (amended): a run either writes both artifacts and reports no error,
or fails — but a failure is only guaranteed to precede all output when it
is raised during classification; the endpoint checker writes `report.json`
before rendering, so a rendering failure leaves exactly the JSON
artifact. -/
theorem c3_artifacts_amended (t : EThresholds) (disks : List EDisk) (resource : EResource)
    (services : List EService) (reboot : EReboot) (defender : EDefender) :
    (((endpoint_main t disks resource services reboot defender).2 = none ∧
      (endpoint_main t disks resource services reboot defender).1 =
        ["report.json", "report.html"]) ∨
    ((endpoint_main t disks resource services reboot defender).2 ≠ none ∧
      ((endpoint_main t disks resource services reboot defender).1 = [] ∨
       (endpoint_main t disks resource services reboot defender).1 = ["report.json"]))) ∧
    (∀ e, endpoint_findings disks resource services reboot defender t = Except.error e →
      endpoint_main t disks resource services reboot defender = ([], some e)) := by
  constructor
  · rw [endpoint_main]
    cases endpoint_findings disks resource services reboot defender t with
    | error e => exact Or.inr ⟨by simp, Or.inl rfl⟩
    | ok findings =>
      cases endpoint_build_html_check t with
      | error e => exact Or.inr ⟨by simp, Or.inr rfl⟩
      | ok u => exact Or.inl ⟨rfl, rfl⟩
  · intro e he
    rw [endpoint_main, he]

/-- C3 witness: a resource snapshot with a CPU value but no cpu_alert_pct
threshold fails during classification and writes nothing. -/
theorem c3_artifacts_amended_witness :
    endpoint_main ⟨none, none, none, none, none, none, none⟩ [] ⟨some 50, none⟩ []
        ⟨none, none⟩ ⟨none, none, none, none⟩ = ([], some "KeyError: cpu_alert_pct") :=
  (c3_artifacts_amended ⟨none, none, none, none, none, none, none⟩ [] ⟨some 50, none⟩ []
      ⟨none, none⟩ ⟨none, none, none, none⟩).2 "KeyError: cpu_alert_pct" (by decide)

/-- C4 counterexample: a job row whose identity field `job_name` is empty
is not skipped — it is normalized, classified and appears in the results
(here with an ALERT finding), contradicting the claim that such a record
contributes nothing to the outputs. -/
theorem c4_counterexample :
    backup_results (qnat 864000) ⟨none, none, none, none, none, none⟩
        [Job.from_row ⟨some "", none, some "Failed", none, none, none⟩] =
      [{ job_name := "", last_result := "Failed", last_run := "", last_success := "",
         days_since_success := "", duration_minutes := "", status := "ALERT",
         reason := "Last result is Failed", notes := "" }] := by
  decide

/-- C4 (amended): no record is skipped for a missing identity field — the
backup verifier normalizes and classifies every row of the batch,
producing exactly one result entry per input row (an empty `job_name` is
carried through as an empty identity). -/
theorem c4_no_skip_amended (now : ℚ) (t : BThresholds) (jobs : List Job) :
    (backup_results now t jobs).length = jobs.length := by
  rw [backup_results, sortResults, List.length_insertionSort, List.length_map]

/-- C7: a job record with no usable last_success timestamp (empty or
unparseable, hence `None` after `parse_dt`) classifies ALERT whatever the
categorical result and whatever the thresholds. -/
theorem c7_missing_last_success_alert (job : Job) (now : ℚ) (t : BThresholds)
    (h : job.last_success = none) : (classify_job job now t).1 = "ALERT" := by
  rw [classify_job]
  simp only [days_since, h]
  split
  · rfl
  · split <;> rfl

/-- C7 witness: a job with a successful categorical result but an absent
last_success timestamp is still ALERT. -/
theorem c7_missing_last_success_alert_witness :
    (classify_job ⟨"nightly", none, "Success", none, none, ""⟩ 0
        ⟨none, none, none, none, none, none⟩).1 = "ALERT" :=
  c7_missing_last_success_alert _ _ _ rfl

/-- C2 counterexample: a job carrying both a categorical result and a
last_success timestamp, where the categorical severity is ALERT (failed
result) and the staleness severity is also ALERT (10 days ≥ stale
threshold 3), yet the returned reason is only the outcome explanation and
does not mention the staleness at all (`classify_job` returns before
evaluating staleness) — so the claim that the reason contains both
explanations whenever both severities are non-OK is false. -/
theorem c2_counterexample :
    classify_job ⟨"j", none, "Failed", some 0, none, ""⟩ (qnat 864000)
        ⟨none, none, none, none, none, none⟩ = ("ALERT", "Last result is Failed") ∧
    days_since (some 0) (qnat 864000) = some 10 ∧
    staleSeverity 10 ⟨none, none, none, none, none, none⟩ = "ALERT" ∧
    ¬ strMentions "days" "Last result is Failed" := by
  refine ⟨by decide, by decide, by decide, by decide⟩

set_option maxHeartbeats 1600000 in
/-- C2 (amended): for a job with a parseable last_success, the returned
severity is the more severe of the escalation-adjusted categorical
severity and the staleness severity; but the reason concatenates the two
explanations only in the one case where the categorical severity is WARN
and the staleness severity is WARN — when either side is ALERT the reason
carries that side's explanation alone. -/
theorem c2_staleness_amended (job : Job) (now : ℚ) (t : BThresholds) (d : ℚ)
    (hd : days_since job.last_success now = some d) :
    (classify_job job now t).1 = maxSev (catSeverity job t) (staleSeverity d t) ∧
    (catSeverity job t = "WARN" → staleSeverity d t = "WARN" →
      classify_job job now t =
        ("WARN", "Last result is " ++ job.last_result ++ "; also last success " ++
          fmtFixed 1 d ++ " days ago")) := by
  simp only [classify_job, catSeverity, staleSeverity, hd, Bool.and_eq_true]
  constructor
  · split_ifs <;> first
      | rfl
      | (simp_all; done)
      | (exfalso
         obtain ⟨a, ha, hpa⟩ :=
           ‹∃ a ∈ t.allowed_warning_values.getD ["warning"],
              pyLower a = pyLower job.last_result›
         exact ‹∀ x ∈ t.allowed_warning_values.getD ["warning"],
                  ¬pyLower x = pyLower job.last_result› a ha hpa)
      | tauto
  · intro hc hs
    split_ifs at hc hs ⊢ <;> first
      | rfl
      | (simp_all; done)
      | (exfalso
         obtain ⟨a, ha, hpa⟩ :=
           ‹∃ a ∈ t.allowed_warning_values.getD ["warning"],
              pyLower a = pyLower job.last_result›
         exact ‹∀ x ∈ t.allowed_warning_values.getD ["warning"],
                  ¬pyLower x = pyLower job.last_result› a ha hpa)
      | tauto

/-- C2 witness: a warning-result job 2.5 days past its last success (warn
2, stale 3) — both severities WARN, reason carries both explanations. -/
theorem c2_staleness_amended_witness :
    (classify_job ⟨"j", none, "Warning", some 0, none, ""⟩ (qnat 216000)
        ⟨none, none, none, none, none, none⟩).1 =
      maxSev
        (catSeverity ⟨"j", none, "Warning", some 0, none, ""⟩
          ⟨none, none, none, none, none, none⟩)
        (staleSeverity (mkRat 5 2) ⟨none, none, none, none, none, none⟩) ∧
    classify_job ⟨"j", none, "Warning", some 0, none, ""⟩ (qnat 216000)
        ⟨none, none, none, none, none, none⟩ =
      ("WARN", "Last result is Warning; also last success 2.5 days ago") := by
  have h := c2_staleness_amended ⟨"j", none, "Warning", some 0, none, ""⟩ (qnat 216000)
    ⟨none, none, none, none, none, none⟩ (mkRat 5 2) (by decide)
  exact ⟨h.1, (h.2 (by decide) (by decide)).trans (by decide)⟩

/-- C10: `classify_job` compares the categorical result against the
configured value sets case-insensitively: changing only the letter case of
the record's last_result, or of any configured set value, leaves the
returned severity unchanged. -/
theorem c10_case_insensitive :
    (∀ (job : Job) (now : ℚ) (t : BThresholds) (r2 : String),
      pyLower r2 = pyLower job.last_result →
      (classify_job { job with last_result := r2 } now t).1 = (classify_job job now t).1) ∧
    (∀ (job : Job) (now : ℚ) (t1 t2 : BThresholds),
      (t1.allowed_success_values.getD ["success"]).map pyLower =
        (t2.allowed_success_values.getD ["success"]).map pyLower →
      (t1.allowed_warning_values.getD ["warning"]).map pyLower =
        (t2.allowed_warning_values.getD ["warning"]).map pyLower →
      (t1.allowed_fail_values.getD ["failed", "error"]).map pyLower =
        (t2.allowed_fail_values.getD ["failed", "error"]).map pyLower →
      t1.fail_on_warning_result = t2.fail_on_warning_result →
      t1.warning_days = t2.warning_days →
      t1.stale_days = t2.stale_days →
      (classify_job job now t1).1 = (classify_job job now t2).1) := by
  constructor
  · intro job now t r2 h
    simp only [classify_job, h]
    cases hds : days_since job.last_success now with
    | none => simp only [apply_ite Prod.fst]
    | some d => simp only [apply_ite Prod.fst]
  · intro job now t1 t2 hs hw hf he hwd hsd
    simp only [classify_job, hw, hf, he, hwd, hsd]

/-- C10 witness: flipping the case of the record value and of a configured
fail value leaves the ALERT severity unchanged. -/
theorem c10_case_insensitive_witness :
    (classify_job ⟨"j", none, "FaIlEd", some 0, none, ""⟩ 0
        ⟨none, none, none, none, none, none⟩).1 =
      (classify_job ⟨"j", none, "failed", some 0, none, ""⟩ 0
        ⟨none, none, none, none, none, none⟩).1 ∧
    (classify_job ⟨"j", none, "failed", some 0, none, ""⟩ 0
        ⟨none, none, some ["FAILED", "error"], none, none, none⟩).1 =
      (classify_job ⟨"j", none, "failed", some 0, none, ""⟩ 0
        ⟨none, none, some ["failed", "error"], none, none, none⟩).1 :=
  ⟨c10_case_insensitive.1 ⟨"j", none, "failed", some 0, none, ""⟩ 0
      ⟨none, none, none, none, none, none⟩ "FaIlEd" (by decide),
   c10_case_insensitive.2 ⟨"j", none, "failed", some 0, none, ""⟩ 0
      ⟨none, none, some ["FAILED", "error"], none, none, none⟩
      ⟨none, none, some ["failed", "error"], none, none, none⟩
      (by decide) (by decide) (by decide) rfl rfl rfl⟩

/-- `make_table` on a single six-cell row, split around the last cell
(the shape of the endpoint summary table, whose last cell is the
generation timestamp). -/
theorem make_table_split6 (hdrs : List String) (c1 c2 c3 c4 c5 g : String) :
    make_table hdrs [[c1, c2, c3, c4, c5, g]] =
      ("<table><thead><tr>" ++ strJoin (hdrs.map fun h => "<th>" ++ esc h ++ "</th>")
        ++ "</tr></thead><tbody>" ++ "<tr>"
        ++ ("<td>" ++ esc c1 ++ "</td>") ++ ("<td>" ++ esc c2 ++ "</td>")
        ++ ("<td>" ++ esc c3 ++ "</td>") ++ ("<td>" ++ esc c4 ++ "</td>")
        ++ ("<td>" ++ esc c5 ++ "</td>") ++ "<td>")
      ++ esc g ++ ("</td>" ++ "</tr>" ++ "</tbody></table>") := by
  have hemp : ∀ s : String, "" ++ s = s := fun _ => rfl
  simp only [make_table, strJoin, List.map_cons, List.map_nil, List.foldl_cons,
    List.foldl_nil, List.cons_ne_nil, if_false, hemp, String.append_assoc]

/-- The failure projection agrees with the full renderer: the endpoint
`build_html` raises exactly when its effect model (used by the `main`
write model) does, with the same error. -/
theorem endpoint_build_html_check_agrees (gen : String) (rep : EReport) (e : String) :
    endpoint_build_html gen rep = Except.error e ↔
      endpoint_build_html_check rep.thresholds = Except.error e := by
  obtain ⟨⟨dw, da, cw, ca, mw, ma, al⟩, si, dk, sv, rb, df, fd⟩ := rep
  rw [endpoint_build_html, endpoint_build_html_check]
  cases dw <;> cases da <;> cases cw <;> cases ca <;> cases mw <;> cases ma <;>
    simp [dictGet, except_bind_ok, except_bind_error]

set_option maxHeartbeats 4000000 in
/-- C8: rendering is deterministic and presentation-only, for both cited
renderers.  The backup verifier's `build_html` output is a fixed prefix,
then the escaped generation timestamp, then a suffix that is a function
of the thresholds and the already-classified results alone; the endpoint
checker's `build_html` output (whenever it renders at all, i.e. the six
threshold keys are present) is likewise a prefix depending only on the
report and the threshold values, then the escaped timestamp, then a
suffix depending only on the report.  Hence two renderings of the same
report object with the same generation timestamp are byte-identical, and
renderings differing only in the timestamp differ only in that field;
rendering reads severities and annotations but never computes or changes
them. -/
theorem c8_render_deterministic :
    (∀ (gen : String) (t : BThresholds) (results : List BResult),
      bbuild_html gen t results = bhPre ++ esc gen ++ bhPost t results) ∧
    (∀ (gen : String) (rep : EReport) (dw da cw ca mw ma : ℚ),
      rep.thresholds.disk_free_warn_pct = some dw →
      rep.thresholds.disk_free_alert_pct = some da →
      rep.thresholds.cpu_warn_pct = some cw →
      rep.thresholds.cpu_alert_pct = some ca →
      rep.thresholds.mem_used_warn_pct = some mw →
      rep.thresholds.mem_used_alert_pct = some ma →
      endpoint_build_html gen rep =
        Except.ok (endpoint_html_pre rep dw da cw ca mw ma ++ esc gen ++
          endpoint_html_post rep)) := by
  constructor
  · intro gen t results
    simp only [bbuild_html, bhPre, bhPost, String.append_assoc]
  · intro gen rep dw da cw ca mw ma hdw hda hcw hca hmw hma
    simp only [endpoint_build_html, hdw, hda, hcw, hca, hmw, hma, dictGet, except_bind_ok,
      Except.ok.injEq]
    rw [make_table_split6]
    simp only [endpoint_html_pre, endpoint_html_post, String.append_assoc]

/-- C8 witness: both renderers decomposed at a concrete report and
timestamp (endpoint thresholds all present, discharging every
hypothesis). -/
theorem c8_render_deterministic_witness :
    bbuild_html "2026-01-02 03:04:05" ⟨none, none, none, none, none, none⟩ [] =
      bhPre ++ esc "2026-01-02 03:04:05" ++ bhPost ⟨none, none, none, none, none, none⟩ [] ∧
    endpoint_build_html "2026-01-02 03:04:05"
        ⟨⟨some 10, some 5, some 70, some 85, some 70, some 85, none⟩,
         ⟨some "PC1", some "Win", some "42"⟩, [], [], ⟨none, none⟩,
         ⟨none, none, none, none⟩, []⟩ =
      Except.ok (endpoint_html_pre
          ⟨⟨some 10, some 5, some 70, some 85, some 70, some 85, none⟩,
           ⟨some "PC1", some "Win", some "42"⟩, [], [], ⟨none, none⟩,
           ⟨none, none, none, none⟩, []⟩ 10 5 70 85 70 85 ++
        esc "2026-01-02 03:04:05" ++
        endpoint_html_post
          ⟨⟨some 10, some 5, some 70, some 85, some 70, some 85, none⟩,
           ⟨some "PC1", some "Win", some "42"⟩, [], [], ⟨none, none⟩,
           ⟨none, none, none, none⟩, []⟩) :=
  ⟨c8_render_deterministic.1 "2026-01-02 03:04:05" ⟨none, none, none, none, none, none⟩ [],
   c8_render_deterministic.2 "2026-01-02 03:04:05"
     ⟨⟨some 10, some 5, some 70, some 85, some 70, some 85, none⟩,
      ⟨some "PC1", some "Win", some "42"⟩, [], [], ⟨none, none⟩,
      ⟨none, none, none, none⟩, []⟩ 10 5 70 85 70 85 rfl rfl rfl rfl rfl rfl⟩

/-- C9 counterexample: a remainder path containing a newline defeats the
host-stripping regex (`.` does not match a newline), so two inputs that
differ only in the host segment normalize differently. -/
theorem c9_counterexample :
    normalize_counter_path "\\\\a\\x\ny" ≠ normalize_counter_path "\\\\b\\x\ny" := by
  decide

/-- `Char.toLower` is idempotent. -/
theorem char_toLower_idem (c : Char) : c.toLower.toLower = c.toLower := by
  simp only [Char.toLower]
  by_cases h : c.toNat ≥ 65 ∧ c.toNat ≤ 90
  · have hv : (c.toNat + 32).isValidChar := Or.inl (by omega)
    have ht : (Char.ofNat (c.toNat + 32)).toNat = c.toNat + 32 := by
      rw [Char.ofNat, dif_pos hv]; rfl
    rw [if_pos h, if_neg (by rw [ht]; omega)]
  · rw [if_neg h, if_neg h]

/-- `pyLower` is idempotent. -/
theorem pyLower_idem (s : String) : pyLower (pyLower s) = pyLower s := by
  simp only [pyLower, List.map_map]
  congr 1
  exact List.map_congr_left fun c _ => char_toLower_idem c

/-- Dropping whitespace distributes over an append whose second part
starts with a non-whitespace element. -/
theorem dropWhile_append_cons_neg {p : Char → Bool} {b : Char} (hb : p b = false)
    (xs ys : List Char) : (xs ++ b :: ys).dropWhile p = xs.dropWhile p ++ b :: ys := by
  rw [List.dropWhile_append]
  by_cases hD : (xs.dropWhile p).isEmpty
  · rw [if_pos hD, List.isEmpty_iff.mp hD, List.dropWhile_cons, hb]
    simp
  · rw [if_neg hD]

/-- The effect of `pyStrip` on a well-formed counter path: only the
remainder part can lose (trailing) whitespace. -/
theorem pyStrip_counter (h r : String) :
    pyStrip ("\\\\" ++ h ++ "\\" ++ r) =
      ⟨'\\' :: '\\' :: (h.data ++ '\\' :: (r.data.reverse.dropWhile isPyWs).reverse)⟩ := by
  have hdata : ("\\\\" ++ h ++ "\\" ++ r).data =
      '\\' :: '\\' :: (h.data ++ '\\' :: r.data) := by
    show ("\\\\".data ++ h.data ++ "\\".data ++ r.data) = _
    simp
  have hws : isPyWs '\\' = false := rfl
  rw [pyStrip, hdata, List.dropWhile_cons, hws]
  simp only [Bool.false_eq_true, if_false]
  have hrev : ('\\' :: '\\' :: (h.data ++ '\\' :: r.data)).reverse =
      r.data.reverse ++ '\\' :: (h.data.reverse ++ ['\\', '\\']) := by
    simp
  rw [hrev, dropWhile_append_cons_neg hws]
  apply String.ext
  simp

/-- Host-independence workhorse: when the host has no backslash and the
remainder has no newline, `normalize_counter_path` reduces to a value that
does not depend on the host at all. -/
theorem normalize_drops_host (h r : String) (hne : h.data ≠ [])
    (hnb : ∀ c ∈ h.data, c ≠ '\\') (hnn : '\n' ∉ r.data) :
    normalize_counter_path ("\\\\" ++ h ++ "\\" ++ r) =
      ⟨('\\' :: (r.data.reverse.dropWhile isPyWs).reverse).map Char.toLower⟩ := by
  have hnotin : '\n' ∉ (r.data.reverse.dropWhile isPyWs).reverse := by
    intro hm
    rw [List.mem_reverse] at hm
    exact hnn (List.mem_reverse.mp ((List.dropWhile_sublist isPyWs).subset hm))
  have hcont : ((r.data.reverse.dropWhile isPyWs).reverse).contains '\n' = false := by
    simpa using hnotin
  have htake : (h.data ++ '\\' :: (r.data.reverse.dropWhile isPyWs).reverse).takeWhile
      (fun c => c ≠ '\\') = h.data := by
    rw [List.takeWhile_append_of_pos (by intro a ha; simpa using hnb a ha)]
    rw [List.takeWhile_cons]
    simp
  have hdrop : (h.data ++ '\\' :: (r.data.reverse.dropWhile isPyWs).reverse).dropWhile
      (fun c => c ≠ '\\') = '\\' :: (r.data.reverse.dropWhile isPyWs).reverse := by
    rw [List.dropWhile_append_of_pos (by intro a ha; simpa using hnb a ha)]
    rw [List.dropWhile_cons]
    simp
  rw [normalize_counter_path, pyStrip_counter]
  simp only [hostPrefixMatch, htake, hdrop, if_neg hne, hcont]
  simp

/-- C9 (amended): `normalize_counter_path` is host-independent whenever
the remainder path contains no newline (an interior newline defeats the
regex and the host is kept), and its result is always fully case-folded. -/
theorem c9_normalize_amended :
    (∀ h1 h2 r : String, h1.data ≠ [] → h2.data ≠ [] →
      (∀ c ∈ h1.data, c ≠ '\\') → (∀ c ∈ h2.data, c ≠ '\\') → '\n' ∉ r.data →
      normalize_counter_path ("\\\\" ++ h1 ++ "\\" ++ r) =
        normalize_counter_path ("\\\\" ++ h2 ++ "\\" ++ r)) ∧
    (∀ raw : String, pyLower (normalize_counter_path raw) = normalize_counter_path raw) := by
  constructor
  · intro h1 h2 r hne1 hne2 hnb1 hnb2 hnn
    rw [normalize_drops_host h1 r hne1 hnb1 hnn, normalize_drops_host h2 r hne2 hnb2 hnn]
  · intro raw
    rw [normalize_counter_path]
    apply String.ext
    simp only [pyLower, List.map_map]
    exact List.map_congr_left fun c _ => char_toLower_idem c

/-- C9 witness: the amended host-independence at concrete hosts and a
newline-free remainder, and case-folding on a concrete path. -/
theorem c9_normalize_amended_witness :
    normalize_counter_path "\\\\HOSTA\\Processor(_Total)\\% Processor Time" =
      normalize_counter_path "\\\\hostb\\Processor(_Total)\\% Processor Time" ∧
    pyLower (normalize_counter_path "\\\\HOSTA\\Processor(_Total)\\% Processor Time") =
      normalize_counter_path "\\\\HOSTA\\Processor(_Total)\\% Processor Time" :=
  ⟨c9_normalize_amended.1 "HOSTA" "hostb" "Processor(_Total)\\% Processor Time"
      (by decide) (by decide) (by decide) (by decide) (by decide),
   c9_normalize_amended.2 "\\\\HOSTA\\Processor(_Total)\\% Processor Time"⟩
